import Mathlib

/-!
Verification of the EXIF extraction and frame geometry core of the
Aperture-Frame repository (src/lib/exif.ts and src/lib/image.ts).

A JPEG buffer is modelled as a list of bytes.  JavaScript DataView reads
are modelled in two flavours: total reads (used at call sites that the
source guards with an explicit bounds check, so the default value is
never taken) and Option-valued reads (used at unguarded call sites,
where DataView would throw a RangeError; the value none models the
thrown exception).  JavaScript numbers flowing through the tag pipeline
are modelled exactly as rationals; the two APEX conversions, which
compute a real exponential, land in the reals.
-/

/-- One byte of the buffer; indices past the end read as 0 (such reads only
occur behind bounds guards mirrored from the source). -/
def byteAt (b : List Nat) (i : Nat) : Nat := (b.getD i 0) % 256

/-- DataView.getUint16, total version (for call sites guarded in the source). -/
def getUint16 (b : List Nat) (i : Nat) (little : Bool) : Nat :=
  if little then byteAt b i + 256 * byteAt b (i + 1)
  else 256 * byteAt b i + byteAt b (i + 1)

/-- DataView.getUint32, total version. -/
def getUint32 (b : List Nat) (i : Nat) (little : Bool) : Nat :=
  if little then
    byteAt b i + 256 * byteAt b (i + 1) + 65536 * byteAt b (i + 2) +
      16777216 * byteAt b (i + 3)
  else
    16777216 * byteAt b i + 65536 * byteAt b (i + 1) + 256 * byteAt b (i + 2) +
      byteAt b (i + 3)

/-- DataView.getInt32 (two's complement), total version. -/
def getInt32 (b : List Nat) (i : Nat) (little : Bool) : Int :=
  let v := getUint32 b i little
  if v < 2147483648 then (v : Int) else (v : Int) - 4294967296

/-- DataView.getUint16 at an unguarded call site: none models the RangeError
DataView throws when the read crosses the end of the buffer. -/
def getUint16E (b : List Nat) (i : Nat) (little : Bool) : Option Nat :=
  if i + 2 ≤ b.length then some (getUint16 b i little) else none

/-- DataView.getUint32 at an unguarded call site; none models the RangeError. -/
def getUint32E (b : List Nat) (i : Nat) (little : Bool) : Option Nat :=
  if i + 4 ≤ b.length then some (getUint32 b i little) else none

/-! ## Orientation Resolver (parseExifOrientation, src/lib/image.ts) -/

/-- Result of one directory walk of the orientation parser: the raw tag value,
a thrown RangeError, or tag 0x0112 missing from the directory. -/
inductive OrEntRes where
  | val (n : Nat)
  | thrown
  | missing
deriving DecidableEq

/-- The entry loop of parseExifOrientation: scan `cnt` remaining 12-byte
entries starting at index i, looking for tag 0x0112.  The two getUint16 calls
are unguarded in the source and can throw. -/
def orientEntries (b : List Nat) (little : Bool) (ifdOffset : Nat) :
    Nat → Nat → OrEntRes
  | 0, _ => .missing
  | cnt + 1, i =>
    let entryOffset := ifdOffset + i * 12
    match getUint16E b entryOffset little with
    | none => .thrown
    | some tag =>
      if tag = 0x0112 then
        match getUint16E b (entryOffset + 8) little with
        | none => .thrown
        | some v => .val v
      else orientEntries b little ifdOffset cnt (i + 1)

/-- Result of the JPEG marker scan of the orientation parser. -/
inductive OrScanRes where
  | ok (n : Nat)
  | thrown
  | fuelOut
deriving DecidableEq

/-- The while loop of parseExifOrientation over JPEG segment markers.  Fuel
bounds the number of iterations; each iteration advances the offset by at
least 2, so fuel (length / 2 + 1) is always sufficient (proved below). -/
def orientScan (b : List Nat) : Nat → Nat → OrScanRes
  | 0, _ => .fuelOut
  | fuel + 1, offset =>
    if offset + 4 < b.length then
      let marker := getUint16 b offset false
      let off2 := offset + 2
      if marker = 0xffe1 ∧ off2 + 8 < b.length then
        -- the 2-byte segment length is read (in bounds) and discarded
        let off3 := off2 + 2
        if getUint32 b off3 false ≠ 0x45786966 then .ok 1
        else
          let off4 := off3 + 6
          match getUint16E b off4 false with
          | none => .thrown
          | some bom =>
            let little := bom == 0x4949
            match getUint32E b (off4 + 4) little with
            | none => .thrown
            | some firstIFDOffset =>
              let ifdOffset := off4 + firstIFDOffset
              match getUint16E b ifdOffset little with
              | none => .thrown
              | some entries =>
                match orientEntries b little (ifdOffset + 2) entries 0 with
                | .val n => .ok n
                | .thrown => .thrown
                | .missing => .ok 1
      else if (marker &&& 0xff00) ≠ 0xff00 then .ok 1
      else orientScan b fuel (off2 + getUint16 b off2 false)
    else .ok 1

/-- parseExifOrientation.  The function has no try/catch in the source, so a
RangeError escapes to the caller; the value none models that thrown error.
The fuel-exhaustion case is unreachable (proved below) and also maps to none. -/
def parseExifOrientation (b : List Nat) : Option Nat :=
  if b.length < 4 ∨ getUint16 b 0 false ≠ 0xffd8 then some 1
  else
    match orientScan b (b.length / 2 + 1) 2 with
    | .ok n => some n
    | .thrown => none
    | .fuelOut => none

/-- A 13-byte buffer: SOI, APP1 marker, segment length, the Exif signature and
one padding byte.  parseExifOrientation reaches the byte-order-mark read at
offset 12 with only one byte left in the buffer. -/
def orientThrowBuf : List Nat :=
  [0xFF, 0xD8, 0xFF, 0xE1, 0x00, 0x00, 0x45, 0x78, 0x69, 0x66, 0x00, 0x00, 0x00]

/-- A 32-byte buffer whose EXIF block stores orientation tag 0x0112 with raw
value 9 (outside the valid range 1..8). -/
def orientNineBuf : List Nat :=
  [0xFF, 0xD8, 0xFF, 0xE1, 0x00, 0x1C,
   0x45, 0x78, 0x69, 0x66, 0x00, 0x00,
   0x49, 0x49, 0x2A, 0x00, 0x08, 0x00, 0x00, 0x00,
   0x01, 0x00,
   0x12, 0x01, 0x03, 0x00, 0x01, 0x00, 0x00, 0x00, 0x09, 0x00]

/-! ## Frame Geometry Engine (src/lib/image.ts) -/

/-- JavaScript Math.round: round half toward positive infinity. -/
def jsRound (q : Rat) : Int := Int.floor (q + 1/2)

/-- The aspect presets of the UI. -/
inductive AspectPreset where
  | original
  | fourFive
  | oneOne
  | nineSixteen
deriving DecidableEq

/-- presetToRatio from the source: the fixed target aspect ratio of a preset,
none for the preset original. -/
def targetOfPreset : AspectPreset → Option Rat
  | .fourFive => some (4 / 5)
  | .oneOne => some 1
  | .nineSixteen => some (9 / 16)
  | .original => none

/-- The FrameLayout record.  Canvas sizes and content offsets are the rounded
integers the source produces; content size and border thickness stay exact. -/
structure FrameLayout where
  canvasWidth : Int
  canvasHeight : Int
  contentX : Int
  contentY : Int
  contentWidth : Rat
  contentHeight : Rat
  borderPx : Rat
deriving DecidableEq

/-- computeFrameLayout.  The Rat division models JavaScript number division;
the two coincide whenever the divisor is nonzero, which the theorems below
guarantee by requiring positive image dimensions. -/
def computeFrameLayout (imageWidth imageHeight borderPercent : Rat)
    (aspectPreset : AspectPreset) : FrameLayout :=
  let shortEdge := min imageWidth imageHeight
  let borderPx := shortEdge * borderPercent / 100
  let contentWidth := imageWidth
  let contentHeight := imageHeight
  let cw0 := contentWidth + borderPx * 2
  let ch0 := contentHeight + borderPx * 2
  let adjusted :=
    match targetOfPreset aspectPreset with
    | none => (cw0, ch0)
    | some r => if cw0 / ch0 > r then (cw0, cw0 / r) else (ch0 * r, ch0)
  let roundedWidth := jsRound adjusted.1
  let roundedHeight := jsRound adjusted.2
  { canvasWidth := roundedWidth
    canvasHeight := roundedHeight
    contentX := jsRound (((roundedWidth : Rat) - contentWidth) / 2)
    contentY := jsRound (((roundedHeight : Rat) - contentHeight) / 2)
    contentWidth := contentWidth
    contentHeight := contentHeight
    borderPx := borderPx }

/-- IOS_SAFE_PIXEL_LIMIT from the source. -/
def IOS_SAFE_PIXEL_LIMIT : Nat := 16700000

/-- IOS_SAFE_EDGE_LIMIT from the source. -/
def IOS_SAFE_EDGE_LIMIT : Nat := 4096

/-- computeSafeScale: the smaller of a total-pixel-budget scale and a
longest-edge scale, each capped at 1. -/
noncomputable def computeSafeScale (width height : Rat) : Real :=
  let pixelScale :=
    min 1 (Real.sqrt ((IOS_SAFE_PIXEL_LIMIT : Real) / ((width : Real) * (height : Real))))
  let edgeScale :=
    min 1 ((IOS_SAFE_EDGE_LIMIT : Real) / max (width : Real) (height : Real))
  min pixelScale edgeScale

/-! ## EXIF Extraction Pipeline (src/lib/exif.ts) -/

/-- The whitespace characters removed by the JavaScript String.trim on the
byte range 0..255 (tab, line feed, vertical tab, form feed, carriage return,
space, no-break space). -/
def isJsSpace (c : Char) : Bool :=
  c.toNat = 9 || c.toNat = 10 || c.toNat = 11 || c.toNat = 12 || c.toNat = 13 ||
  c.toNat = 32 || c.toNat = 160

/-- String.trim: drop leading and trailing whitespace. -/
def trimChars (l : List Char) : List Char :=
  ((l.dropWhile isJsSpace).reverse.dropWhile isJsSpace).reverse

/-- The character-collecting loop of readAscii: stop at a NUL byte, after
count characters, or at the end of the buffer. -/
def readAsciiChars (b : List Nat) (offset : Nat) : Nat → Nat → List Char
  | 0, _ => []
  | cnt + 1, i =>
    if offset + i < b.length then
      let code := byteAt b (offset + i)
      if code = 0 then []
      else Char.ofNat code :: readAsciiChars b offset cnt (i + 1)
    else []

/-- readAscii: collect characters, trim whitespace, and return none for an
empty result (the source returns undefined then). -/
def readAscii (b : List Nat) (offset count : Nat) : Option String :=
  let trimmed := trimChars (readAsciiChars b offset count 0)
  if trimmed = [] then none else some (String.mk trimmed)

/-- typeSize: byte width of one element of a TIFF entry type. -/
def typeSize : Nat → Nat
  | 1 | 2 | 7 => 1
  | 3 => 2
  | 4 | 9 => 4
  | 5 | 10 => 8
  | _ => 0

/-- readRational: unsigned rational, none on truncation or zero denominator. -/
def readRational (b : List Nat) (offset : Nat) (little : Bool) : Option Rat :=
  if offset + 8 > b.length then none
  else
    let numerator := getUint32 b offset little
    let denominator := getUint32 b (offset + 4) little
    if denominator = 0 then none
    else some ((numerator : Rat) / (denominator : Rat))

/-- readSignedRational: signed rational, none on truncation or zero
denominator. -/
def readSignedRational (b : List Nat) (offset : Nat) (little : Bool) : Option Rat :=
  if offset + 8 > b.length then none
  else
    let numerator := getInt32 b offset little
    let denominator := getInt32 b (offset + 4) little
    if denominator = 0 then none
    else some ((numerator : Rat) / (denominator : Rat))

/-- One parsed directory entry: type code, element count, and the absolute
byte offset of the value (inline or pointer-resolved at parse time). -/
structure ParsedEntry where
  type : Nat
  count : Nat
  valueOffset : Nat
deriving DecidableEq

/-- One step of the parseIFD loop: skip entries truncated by the buffer end,
otherwise append the parsed entry (Map.set; a later duplicate tag wins on
lookup). -/
def parseIFDEntry (b : List Nat) (tiffOffset ifdOffset : Nat) (little : Bool)
    (acc : List (Nat × ParsedEntry)) (i : Nat) : List (Nat × ParsedEntry) :=
  let entryOffset := ifdOffset + 2 + i * 12
  if entryOffset + 12 > b.length then acc
  else
    let tag := getUint16 b entryOffset little
    let type := getUint16 b (entryOffset + 2) little
    let itemCount := getUint32 b (entryOffset + 4) little
    let rawOffset := getUint32 b (entryOffset + 8) little
    let bytes := typeSize type * itemCount
    let valueOffset := if bytes ≤ 4 then entryOffset + 8 else tiffOffset + rawOffset
    acc ++ [(tag, ⟨type, itemCount, valueOffset⟩)]

/-- parseIFD: read the 2-byte entry count and parse each 12-byte entry. -/
def parseIFD (b : List Nat) (tiffOffset ifdOffset : Nat) (little : Bool) :
    List (Nat × ParsedEntry) :=
  if ifdOffset + 2 > b.length then []
  else
    (List.range (getUint16 b ifdOffset little)).foldl
      (parseIFDEntry b tiffOffset ifdOffset little) []

/-- Map.get on the parsed directory: the last entry stored for a tag wins. -/
def lookupTag (entries : List (Nat × ParsedEntry)) (tag : Nat) : Option ParsedEntry :=
  (entries.reverse.find? fun e => e.1 == tag).map fun e => e.2

/-- A decoded entry value: ASCII string, single number, or number list. -/
inductive EntryVal where
  | str (s : String)
  | num (q : Rat)
  | nums (l : List Rat)
deriving DecidableEq

/-- The type-3 multi-value loop of readEntryValue (breaks at the buffer end). -/
def shortsFrom (b : List Nat) (little : Bool) (offset : Nat) : Nat → Nat → List Rat
  | 0, _ => []
  | cnt + 1, i =>
    let pos := offset + i * 2
    if pos + 2 > b.length then []
    else (getUint16 b pos little : Rat) :: shortsFrom b little offset cnt (i + 1)

/-- The type-5 multi-value loop of readEntryValue (skips unreadable values). -/
def rationalsFrom (b : List Nat) (little : Bool) (offset : Nat) : Nat → Nat → List Rat
  | 0, _ => []
  | cnt + 1, i =>
    match readRational b (offset + i * 8) little with
    | some v => v :: rationalsFrom b little offset cnt (i + 1)
    | none => rationalsFrom b little offset cnt (i + 1)

/-- The type-10 multi-value loop of readEntryValue. -/
def signedRationalsFrom (b : List Nat) (little : Bool) (offset : Nat) :
    Nat → Nat → List Rat
  | 0, _ => []
  | cnt + 1, i =>
    match readSignedRational b (offset + i * 8) little with
    | some v => v :: signedRationalsFrom b little offset cnt (i + 1)
    | none => signedRationalsFrom b little offset cnt (i + 1)

/-- readEntryValue: decode an entry according to its type code, re-checking
bounds before each dereference; none models undefined. -/
def readEntryValue (b : List Nat) (entry : Option ParsedEntry) (little : Bool) :
    Option EntryVal :=
  match entry with
  | none => none
  | some e =>
    if e.valueOffset ≥ b.length then none
    else if e.type = 2 then (readAscii b e.valueOffset e.count).map EntryVal.str
    else if e.type = 3 then
      if e.count = 1 then
        if e.valueOffset + 2 > b.length then none
        else some (.num (getUint16 b e.valueOffset little))
      else some (.nums (shortsFrom b little e.valueOffset e.count 0))
    else if e.type = 4 then
      if e.valueOffset + 4 > b.length then none
      else some (.num (getUint32 b e.valueOffset little))
    else if e.type = 5 then
      if e.count = 1 then (readRational b e.valueOffset little).map EntryVal.num
      else
        match rationalsFrom b little e.valueOffset e.count 0 with
        | [] => none
        | l => some (.nums l)
    else if e.type = 10 then
      if e.count = 1 then (readSignedRational b e.valueOffset little).map EntryVal.num
      else
        match signedRationalsFrom b little e.valueOffset e.count 0 with
        | [] => none
        | l => some (.nums l)
    else none

/-- toNumber: a single number passes through (all model values are finite);
for a number list the first element is taken; anything else is undefined. -/
def toNumber : Option EntryVal → Option Rat
  | some (.num q) => some q
  | some (.nums (q :: _)) => some q
  | _ => none

/-- The source helper named toString (the name is taken by the Lean ToString
class, hence the V suffix): only a string value passes through. -/
def toStringV : Option EntryVal → Option String
  | some (.str s) => some s
  | _ => none

/-- apertureFromApex: 2 to the power av/2.  The JavaScript truthiness guard
drops the value 0 as well as undefined; every model value is finite. -/
noncomputable def apertureFromApex (av : Option Rat) : Option Real :=
  match av with
  | none => none
  | some a => if a = 0 then none else some ((2 : Real) ^ ((a : Real) / 2))

/-- shutterFromApex: 1 over 2 to the power tv, with the same truthiness
guard. -/
noncomputable def shutterFromApex (tv : Option Rat) : Option Real :=
  match tv with
  | none => none
  | some t => if t = 0 then none else some (1 / (2 : Real) ^ (t : Real))

/-- The aperture fallback chain of extractExifData: FNumber if defined,
otherwise the APEX derivation (the ?? operator keeps a defined 0). -/
noncomputable def apertureNumber (fNumber apertureValue : Option Rat) : Option Real :=
  Option.orElse (fNumber.map fun q => (q : Real)) fun _ => apertureFromApex apertureValue

/-- The shutter fallback chain of extractExifData: ExposureTime if defined,
otherwise the APEX derivation. -/
noncomputable def shutterNumber (exposureTime shutterSpeed : Option Rat) : Option Real :=
  Option.orElse (exposureTime.map fun q => (q : Real)) fun _ => shutterFromApex shutterSpeed

/-- JavaScript Math.round on a real argument. -/
noncomputable def jsRoundR (x : Real) : Int := Int.floor (x + 1/2)

/-- Number.prototype.toFixed(1) followed by stripping a trailing ".0", for
the positive arguments the formatters feed it (ties round to the larger
digit string, as the toFixed specification picks the larger n). -/
noncomputable def toFixed1strip (x : Real) : String :=
  let n := Int.floor (x * 10 + 1/2)
  if n % 10 = 0 then toString (n / 10)
  else toString (n / 10) ++ "." ++ toString (n % 10)

/-- formatShutter: at least one second renders with one decimal and an s
suffix; below one second renders as an inverse fraction; nonpositive or
missing values are omitted, as is a zero rounded denominator. -/
noncomputable def formatShutter (seconds : Option Real) : Option String :=
  match seconds with
  | none => none
  | some s =>
    if s ≤ 0 then none
    else if 1 ≤ s then some (toFixed1strip s ++ "s")
    else
      let inv := jsRoundR (1 / s)
      if 0 < inv then some ("1/" ++ toString inv) else none

/-- formatAperture: one decimal with a trailing ".0" stripped; nonpositive or
missing values are omitted. -/
noncomputable def formatAperture (value : Option Real) : Option String :=
  match value with
  | none => none
  | some v => if v ≤ 0 then none else some (toFixed1strip v)

/-- formatFocal: the rounded integer; nonpositive or missing values are
omitted.  Its argument always comes from the exact rational pipeline. -/
def formatFocal (value : Option Rat) : Option String :=
  match value with
  | none => none
  | some v => if v ≤ 0 then none else some (toString (jsRound v))

/-- The f/ component of lensFromSpecification: a template literal inserts the
string "undefined" when formatAperture yields no value. -/
noncomputable def fmtApOrUndef (q : Rat) : String :=
  match formatAperture (some (q : Real)) with
  | some s => s
  | none => "undefined"

/-- lensFromSpecification: build a lens description from the 4-element
LensSpecification value, collapsing equal min and max. -/
noncomputable def lensFromSpecification (spec : Option EntryVal) : Option String :=
  match spec with
  | some (.nums l) =>
    if l.length < 2 then none
    else
      let minFocal := l.getD 0 0
      let maxFocal := l.getD 1 0
      let focal :=
        if minFocal = maxFocal then toString (jsRound minFocal) ++ "mm"
        else toString (jsRound minFocal) ++ "-" ++ toString (jsRound maxFocal) ++ "mm"
      match l.get? 2, l.get? 3 with
      | some minAp, some maxAp =>
        let ap :=
          if minAp = maxAp then "f/" ++ fmtApOrUndef minAp
          else "f/" ++ fmtApOrUndef minAp ++ "-" ++ fmtApOrUndef maxAp
        some (focal ++ " " ++ ap)
      | _, _ => some focal
  | _ => none

/-- A digit character 0..9. -/
def isDigitChar (c : Char) : Bool := 48 ≤ c.toNat && c.toNat ≤ 57

/-- The date prefix substitution: YYYY:MM:DD becomes YYYY-MM-DD, anchored at
the start; a non-matching string is returned unchanged. -/
def dateReplace (s : String) : String :=
  match s.toList with
  | y1 :: y2 :: y3 :: y4 :: c1 :: m1 :: m2 :: c2 :: d1 :: d2 :: rest =>
    if isDigitChar y1 && isDigitChar y2 && isDigitChar y3 && isDigitChar y4 &&
        c1 == ':' && isDigitChar m1 && isDigitChar m2 && c2 == ':' &&
        isDigitChar d1 && isDigitChar d2 then
      String.mk (y1 :: y2 :: y3 :: y4 :: '-' :: m1 :: m2 :: '-' :: d1 :: d2 :: rest)
    else s
  | _ => s

/-- formatDate: the empty string is falsy in the source guard and yields
undefined. -/
def formatDate (raw : Option String) : Option String :=
  match raw with
  | none => none
  | some s => if s = "" then none else some (dateReplace s)

/-- One debug-map value before JavaScript stringification: the raw string,
number or number list consulted for the field, or the em-dash placeholder.
The JavaScript number-to-string digits are not modelled. -/
inductive DebugEntry where
  | str (s : String)
  | num (q : Rat)
  | nums (l : List Rat)
  | dash
deriving DecidableEq

/-- A string debug field or the em-dash placeholder. -/
def debugStr : Option String → DebugEntry
  | some s => .str s
  | none => .dash

/-- A numeric debug field or the em-dash placeholder. -/
def debugNum : Option Rat → DebugEntry
  | some q => .num q
  | none => .dash

/-- The ExifData record; each optional field of the source is an Option. -/
structure ExifData where
  aperture : Option String
  shutter : Option String
  iso : Option String
  focal : Option String
  camera : Option String
  lens : Option String
  date : Option String
  debug : Option (List (String × DebugEntry))
  unavailable : Option Bool
deriving DecidableEq

/-- The record returned on every unavailable path: only the flag is set. -/
def unavailableExif : ExifData :=
  { aperture := none, shutter := none, iso := none, focal := none, camera := none,
    lens := none, date := none, debug := none, unavailable := some true }

def TAG_MAKE : Nat := 0x010f
def TAG_MODEL : Nat := 0x0110
def TAG_EXIF_IFD_POINTER : Nat := 0x8769
def EXIF_TAG_FNUMBER : Nat := 0x829d
def EXIF_TAG_EXPOSURE_TIME : Nat := 0x829a
def EXIF_TAG_SHUTTER_SPEED_VALUE : Nat := 0x9201
def EXIF_TAG_APERTURE_VALUE : Nat := 0x9202
def EXIF_TAG_ISO : Nat := 0x8827
def EXIF_TAG_PHOTOGRAPHIC_SENSITIVITY : Nat := 0x8833
def EXIF_TAG_FOCAL_LENGTH : Nat := 0x920a
def EXIF_TAG_LENS_SPECIFICATION : Nat := 0xa432
def EXIF_TAG_LENS_MODEL : Nat := 0xa434
def EXIF_TAG_DATE_TIME_ORIGINAL : Nat := 0x9003

/-- The field construction of extractExifData (source lines 222 to 270):
read the tags from the two directories and assemble the formatted record. -/
noncomputable def mkExif (b : List Nat) (little : Bool)
    (ifd0 exifIfd : List (Nat × ParsedEntry)) : ExifData :=
  let make := toStringV (readEntryValue b (lookupTag ifd0 TAG_MAKE) little)
  let model := toStringV (readEntryValue b (lookupTag ifd0 TAG_MODEL) little)
  let fNumberRaw := readEntryValue b (lookupTag exifIfd EXIF_TAG_FNUMBER) little
  let apertureValueRaw := readEntryValue b (lookupTag exifIfd EXIF_TAG_APERTURE_VALUE) little
  let exposureTimeRaw := readEntryValue b (lookupTag exifIfd EXIF_TAG_EXPOSURE_TIME) little
  let shutterSpeedRaw := readEntryValue b (lookupTag exifIfd EXIF_TAG_SHUTTER_SPEED_VALUE) little
  let isoRaw := readEntryValue b (lookupTag exifIfd EXIF_TAG_ISO) little
  let photoSensitivityRaw :=
    readEntryValue b (lookupTag exifIfd EXIF_TAG_PHOTOGRAPHIC_SENSITIVITY) little
  let focalRaw := readEntryValue b (lookupTag exifIfd EXIF_TAG_FOCAL_LENGTH) little
  let lensModelRaw := readEntryValue b (lookupTag exifIfd EXIF_TAG_LENS_MODEL) little
  let lensSpecRaw := readEntryValue b (lookupTag exifIfd EXIF_TAG_LENS_SPECIFICATION) little
  let dateRaw := readEntryValue b (lookupTag exifIfd EXIF_TAG_DATE_TIME_ORIGINAL) little
  let isoValue := Option.orElse (toNumber isoRaw) fun _ => toNumber photoSensitivityRaw
  { aperture := formatAperture (apertureNumber (toNumber fNumberRaw) (toNumber apertureValueRaw))
    shutter := formatShutter (shutterNumber (toNumber exposureTimeRaw) (toNumber shutterSpeedRaw))
    iso := match isoValue with
      | some q => if q = 0 then none else some (toString (jsRound q))
      | none => none
    focal := formatFocal (toNumber focalRaw)
    camera := Option.orElse model fun _ => make
    lens := Option.orElse (toStringV lensModelRaw) fun _ => lensFromSpecification lensSpecRaw
    date := formatDate (toStringV dateRaw)
    debug := some
      [("Make", debugStr make), ("Model", debugStr model),
        ("FNumber", debugNum (toNumber fNumberRaw)),
        ("ApertureValue", debugNum (toNumber apertureValueRaw)),
        ("ExposureTime", debugNum (toNumber exposureTimeRaw)),
        ("ShutterSpeedValue", debugNum (toNumber shutterSpeedRaw)),
        ("ISOSpeedRatings", debugNum (toNumber isoRaw)),
        ("PhotographicSensitivity", debugNum (toNumber photoSensitivityRaw)),
        ("FocalLength", debugNum (toNumber focalRaw)),
        ("LensModel", debugStr (toStringV lensModelRaw)),
        ("LensSpecification", match lensSpecRaw with
          | some (.nums l) => DebugEntry.nums l
          | _ => DebugEntry.dash),
        ("DateTimeOriginal", debugStr (toStringV dateRaw))]
    unavailable := none }

/-- The APP1 branch of the extractExifData scan (source lines 214 to 270).
The byte-order-mark and first-directory-offset reads are unguarded and can
throw (none); a negative EXIF-subdirectory pointer would make the first read
inside parseIFD throw, and a positive fractional one truncates as the
DataView index conversion does. -/
noncomputable def extractBody (b : List Nat) (offset : Nat) : Option ExifData :=
  let exifStart := offset + 2
  if exifStart + 6 ≥ b.length ∨ getUint32 b exifStart false ≠ 0x45786966 then
    some unavailableExif
  else
    let tiffOffset := exifStart + 6
    match getUint16E b tiffOffset false with
    | none => none
    | some bom =>
      let little := bom == 0x4949
      match getUint32E b (tiffOffset + 4) little with
      | none => none
      | some firstIFDOffset =>
        let ifd0 := parseIFD b tiffOffset (tiffOffset + firstIFDOffset) little
        match toNumber (readEntryValue b (lookupTag ifd0 TAG_EXIF_IFD_POINTER) little) with
        | none => some (mkExif b little ifd0 [])
        | some q =>
          if q = 0 then some (mkExif b little ifd0 [])
          else if q < 0 then none
          else some (mkExif b little ifd0
            (parseIFD b tiffOffset (tiffOffset + (Int.floor q).toNat) little))

/-- Result of the JPEG marker scan of extractExifData. -/
inductive ExScanRes where
  | ok (e : ExifData)
  | thrown
  | fuelOut

/-- The while loop of extractExifData over JPEG segment markers. -/
noncomputable def exifScan (b : List Nat) : Nat → Nat → ExScanRes
  | 0, _ => .fuelOut
  | fuel + 1, offset =>
    if offset + 4 < b.length then
      let marker := getUint16 b offset false
      let off2 := offset + 2
      if marker = 0xffe1 then
        match extractBody b off2 with
        | none => .thrown
        | some e => .ok e
      else if (marker &&& 0xff00) ≠ 0xff00 then .ok unavailableExif
      else if off2 + 2 > b.length then .ok unavailableExif
      else exifScan b fuel (off2 + getUint16 b off2 false)
    else .ok unavailableExif

/-- extractExifData: the whole decode runs inside a try/catch, so a thrown
RangeError is converted to the unavailable record; fuel exhaustion is
unreachable (proved below) and maps to the same fallback. -/
noncomputable def extractExifData (b : List Nat) : ExifData :=
  if b.length < 4 ∨ getUint16 b 0 false ≠ 0xffd8 then unavailableExif
  else
    match exifScan b (b.length / 2 + 1) 2 with
    | .ok e => e
    | .thrown => unavailableExif
    | .fuelOut => unavailableExif

/-- An 84-byte JPEG buffer whose EXIF block holds an FNumber rational with
denominator 0 (at absolute offset 68) and a readable ApertureValue signed
rational equal to 2 (at absolute offset 76). -/
def exifApexBuf : List Nat :=
  [0xFF, 0xD8, 0xFF, 0xE1, 0x00, 0x00,
   0x45, 0x78, 0x69, 0x66, 0x00, 0x00,
   0x49, 0x49, 0x2A, 0x00, 0x08, 0x00, 0x00, 0x00,
   0x01, 0x00,
   0x69, 0x87, 0x04, 0x00, 0x01, 0x00, 0x00, 0x00, 0x1A, 0x00, 0x00, 0x00,
   0x00, 0x00, 0x00, 0x00,
   0x02, 0x00,
   0x9D, 0x82, 0x05, 0x00, 0x01, 0x00, 0x00, 0x00, 0x38, 0x00, 0x00, 0x00,
   0x02, 0x92, 0x0A, 0x00, 0x01, 0x00, 0x00, 0x00, 0x40, 0x00, 0x00, 0x00,
   0x00, 0x00, 0x00, 0x00,
   0x01, 0x00, 0x00, 0x00, 0x00, 0x00, 0x00, 0x00,
   0x02, 0x00, 0x00, 0x00, 0x01, 0x00, 0x00, 0x00]

/-! ## Theorems -/

theorem byteAt_lt (b : List Nat) (i : Nat) : byteAt b i < 256 :=
  Nat.mod_lt _ (by norm_num)

theorem getUint16_lt (b : List Nat) (i : Nat) (little : Bool) :
    getUint16 b i little < 65536 := by
  have h1 := byteAt_lt b i
  have h2 := byteAt_lt b (i + 1)
  unfold getUint16
  split <;> omega

theorem getUint16E_lt (b : List Nat) (i : Nat) (little : Bool) (v : Nat)
    (h : getUint16E b i little = some v) : v < 65536 := by
  unfold getUint16E at h
  split at h
  · cases h; exact getUint16_lt b i little
  · cases h

theorem orientEntries_val_lt (b : List Nat) (little : Bool) (ifdOffset : Nat) :
    ∀ cnt i v, orientEntries b little ifdOffset cnt i = .val v → v < 65536 := by
  intro cnt
  induction cnt with
  | zero => intro i v h; simp [orientEntries] at h
  | succ n ih =>
    intro i v h
    unfold orientEntries at h
    dsimp only at h
    split at h
    · simp at h
    · split at h
      · split at h
        · simp at h
        · rename_i w hw
          cases h
          exact getUint16E_lt _ _ _ _ hw
      · exact ih (i + 1) v h

theorem orientScan_ok_lt (b : List Nat) :
    ∀ fuel offset v, orientScan b fuel offset = .ok v → v < 65536 := by
  intro fuel
  induction fuel with
  | zero => intro offset v h; simp [orientScan] at h
  | succ n ih =>
    intro offset v h
    unfold orientScan at h
    dsimp only at h
    split at h
    · split at h
      · split at h
        · cases h; norm_num
        · split at h
          · simp at h
          · split at h
            · simp at h
            · split at h
              · simp at h
              · split at h
                · rename_i hloop
                  cases h
                  exact orientEntries_val_lt _ _ _ _ _ _ hloop
                · simp at h
                · cases h; norm_num
      · split at h
        · cases h; norm_num
        · exact ih _ v h
    · cases h; norm_num

theorem orientScan_ne_fuelOut (b : List Nat) :
    ∀ fuel offset, (b.length - offset) / 2 < fuel →
      orientScan b fuel offset ≠ .fuelOut := by
  intro fuel
  induction fuel with
  | zero => intro offset h; omega
  | succ n ih =>
    intro offset h
    unfold orientScan
    dsimp only
    split
    · split
      · split
        · simp
        · split
          · simp
          · split
            · simp
            · split
              · simp
              · split <;> simp
      · split
        · simp
        · rename_i hc _ _
          exact ih _ (by omega)
    · simp

theorem le_jsRound (n : Int) (q : Rat) (h : (n : Rat) ≤ q) : n ≤ jsRound q := by
  unfold jsRound
  apply Int.le_floor.mpr
  linarith

theorem jsRound_half_le (d : Int) (hd : 0 ≤ d) : jsRound ((d : Rat) / 2) ≤ d := by
  have hdq : (0 : Rat) ≤ (d : Rat) := by exact_mod_cast hd
  have hlt : jsRound ((d : Rat) / 2) < d + 1 := by
    unfold jsRound
    apply Int.floor_lt.mpr
    push_cast
    linarith
  omega

theorem abs_jsRound_sub (q : Rat) : |((jsRound q : Int) : Rat) - q| ≤ 1 := by
  unfold jsRound
  have h1 : ((Int.floor (q + 1/2) : Int) : Rat) ≤ q + 1/2 := Int.floor_le _
  have h2 : q + 1/2 - 1 < ((Int.floor (q + 1/2) : Int) : Rat) := Int.sub_one_lt_floor _
  rw [abs_le]
  constructor <;> linarith

theorem axis_bounds (W : Rat) (n : Nat) (h : (n : Rat) ≤ W) :
    ((jsRound (((jsRound W : Rat) - (n : Rat)) / 2) : Rat) + (n : Rat) ≤ (jsRound W : Rat)) ∧
    ((n : Rat) ≤ (jsRound W : Rat)) ∧
    |(jsRound (((jsRound W : Rat) - (n : Rat)) / 2) : Rat) -
      ((jsRound W : Rat) - (n : Rat)) / 2| ≤ 1 := by
  have hn : (n : Int) ≤ jsRound W := le_jsRound _ _ (by push_cast; linarith)
  have hcast : ((jsRound W : Rat) - (n : Rat)) = ((jsRound W - (n : Int) : Int) : Rat) := by
    push_cast
    ring
  refine ⟨?_, by exact_mod_cast hn, abs_jsRound_sub _⟩
  rw [hcast]
  have hle : jsRound (((jsRound W - (n : Int) : Int) : Rat) / 2) ≤ jsRound W - (n : Int) :=
    jsRound_half_le _ (by omega)
  have : ((jsRound (((jsRound W - (n : Int) : Int) : Rat) / 2) : Int) : Rat) ≤
      ((jsRound W - (n : Int) : Int) : Rat) := by exact_mod_cast hle
  push_cast at this ⊢
  linarith

theorem computeFrameLayout_exists (iw ih bp : Rat) (p : AspectPreset)
    (hiw : 0 < iw) (hih : 0 < ih) (hbp : 0 ≤ bp) :
    ∃ W H : Rat, iw ≤ W ∧ ih ≤ H ∧
      computeFrameLayout iw ih bp p =
        { canvasWidth := jsRound W
          canvasHeight := jsRound H
          contentX := jsRound (((jsRound W : Rat) - iw) / 2)
          contentY := jsRound (((jsRound H : Rat) - ih) / 2)
          contentWidth := iw
          contentHeight := ih
          borderPx := min iw ih * bp / 100 } := by
  have hbord : (0 : Rat) ≤ min iw ih * bp / 100 :=
    div_nonneg (mul_nonneg (le_min hiw.le hih.le) hbp) (by norm_num)
  have hcw : iw ≤ iw + min iw ih * bp / 100 * 2 := by linarith
  have hch : ih ≤ ih + min iw ih * bp / 100 * 2 := by linarith
  have hcwpos : 0 < iw + min iw ih * bp / 100 * 2 := by linarith
  have hchpos : 0 < ih + min iw ih * bp / 100 * 2 := by linarith
  rcases p with _ | _ | _ | _
  case original =>
    exact ⟨iw + min iw ih * bp / 100 * 2, ih + min iw ih * bp / 100 * 2, hcw, hch, rfl⟩
  case fourFive =>
    by_cases hr : (iw + min iw ih * bp / 100 * 2) / (ih + min iw ih * bp / 100 * 2) > 4 / 5
    · refine ⟨iw + min iw ih * bp / 100 * 2,
        (iw + min iw ih * bp / 100 * 2) / (4 / 5), hcw, ?_, ?_⟩
      · rw [le_div_iff₀ (by norm_num : (0 : Rat) < 4 / 5)]
        rw [gt_iff_lt, lt_div_iff₀ hchpos] at hr
        linarith
      · unfold computeFrameLayout
        dsimp only [targetOfPreset]
        rw [if_pos hr]
    · refine ⟨(ih + min iw ih * bp / 100 * 2) * (4 / 5),
        ih + min iw ih * bp / 100 * 2, ?_, hch, ?_⟩
      · rw [not_lt, div_le_iff₀ hchpos] at hr
        linarith
      · unfold computeFrameLayout
        dsimp only [targetOfPreset]
        rw [if_neg hr]
  case oneOne =>
    by_cases hr : (iw + min iw ih * bp / 100 * 2) / (ih + min iw ih * bp / 100 * 2) > 1
    · refine ⟨iw + min iw ih * bp / 100 * 2,
        (iw + min iw ih * bp / 100 * 2) / 1, hcw, ?_, ?_⟩
      · rw [le_div_iff₀ (by norm_num : (0 : Rat) < 1)]
        rw [gt_iff_lt, lt_div_iff₀ hchpos] at hr
        linarith
      · unfold computeFrameLayout
        dsimp only [targetOfPreset]
        rw [if_pos hr]
    · refine ⟨(ih + min iw ih * bp / 100 * 2) * 1,
        ih + min iw ih * bp / 100 * 2, ?_, hch, ?_⟩
      · rw [not_lt, div_le_iff₀ hchpos] at hr
        linarith
      · unfold computeFrameLayout
        dsimp only [targetOfPreset]
        rw [if_neg hr]
  case nineSixteen =>
    by_cases hr : (iw + min iw ih * bp / 100 * 2) / (ih + min iw ih * bp / 100 * 2) > 9 / 16
    · refine ⟨iw + min iw ih * bp / 100 * 2,
        (iw + min iw ih * bp / 100 * 2) / (9 / 16), hcw, ?_, ?_⟩
      · rw [le_div_iff₀ (by norm_num : (0 : Rat) < 9 / 16)]
        rw [gt_iff_lt, lt_div_iff₀ hchpos] at hr
        linarith
      · unfold computeFrameLayout
        dsimp only [targetOfPreset]
        rw [if_pos hr]
    · refine ⟨(ih + min iw ih * bp / 100 * 2) * (9 / 16),
        ih + min iw ih * bp / 100 * 2, ?_, hch, ?_⟩
      · rw [not_lt, div_le_iff₀ hchpos] at hr
        linarith
      · unfold computeFrameLayout
        dsimp only [targetOfPreset]
        rw [if_neg hr]

/-- Claim C7 counterexample: at aspect preset 1:1, image 4000 by 3000 and
border 10 percent, the returned content offset is (300, 800), not (0, 500)
as the claim states; (0, 500) is where the pre-extension canvas lands. -/
theorem claim_C7_counterexample :
    (computeFrameLayout 4000 3000 10 AspectPreset.oneOne).contentX = 300 ∧
    (computeFrameLayout 4000 3000 10 AspectPreset.oneOne).contentY = 800 ∧
    ¬ ((computeFrameLayout 4000 3000 10 AspectPreset.oneOne).contentX = 0 ∧
       (computeFrameLayout 4000 3000 10 AspectPreset.oneOne).contentY = 500) := by
  refine ⟨?_, ?_, ?_⟩ <;> norm_num [computeFrameLayout, targetOfPreset, jsRound]

/-- Claim C7 (amended): with aspect preset 1:1, image 4000 by 3000 and border
10 percent, computeFrameLayout yields borderPx 300 and a 4600 by 4600 canvas
(the height is grown from 3600 to 4600), with content size 4000 by 3000 kept
unaltered and the content rectangle placed at offset (300, 800). -/
theorem claim_C7_amended :
    (computeFrameLayout 4000 3000 10 AspectPreset.oneOne).borderPx = 300 ∧
    (computeFrameLayout 4000 3000 10 AspectPreset.oneOne).canvasWidth = 4600 ∧
    (computeFrameLayout 4000 3000 10 AspectPreset.oneOne).canvasHeight = 4600 ∧
    (computeFrameLayout 4000 3000 10 AspectPreset.oneOne).contentWidth = 4000 ∧
    (computeFrameLayout 4000 3000 10 AspectPreset.oneOne).contentHeight = 3000 ∧
    (computeFrameLayout 4000 3000 10 AspectPreset.oneOne).contentX = 300 ∧
    (computeFrameLayout 4000 3000 10 AspectPreset.oneOne).contentY = 800 := by
  refine ⟨?_, ?_, ?_, ?_, ?_, ?_, ?_⟩ <;>
    norm_num [computeFrameLayout, targetOfPreset, jsRound]

/-- Claim C8 counterexample: for the fractional input width and height 52/5
with border 0 percent, the canvas rounds down to 10 while the content is 10.4
wide, so contentX + contentWidth exceeds canvasWidth.  The invariant therefore
does not hold for all inputs. -/
theorem claim_C8_counterexample :
    ¬ (((computeFrameLayout (52/5) (52/5) 0 AspectPreset.original).contentX : Rat) +
        (computeFrameLayout (52/5) (52/5) 0 AspectPreset.original).contentWidth ≤
        ((computeFrameLayout (52/5) (52/5) 0 AspectPreset.original).canvasWidth : Rat)) := by
  norm_num [computeFrameLayout, targetOfPreset, jsRound]

/-- Claim C8 (amended): for positive integer image dimensions and nonnegative
border percent, every FrameLayout returned by computeFrameLayout keeps the
content size unaltered, satisfies contentX + contentWidth at most canvasWidth
and the symmetric bound for Y, places the content at the rounded midpoint
offsets, has canvas dimensions at least the content size, and centers the
content within one pixel of exact centering. -/
theorem claim_C8_amended (iw ih : Nat) (bp : Rat) (p : AspectPreset)
    (hw : 0 < iw) (hh : 0 < ih) (hbp : 0 ≤ bp) :
    (computeFrameLayout (iw : Rat) (ih : Rat) bp p).contentWidth = (iw : Rat) ∧
    (computeFrameLayout (iw : Rat) (ih : Rat) bp p).contentHeight = (ih : Rat) ∧
    ((computeFrameLayout (iw : Rat) (ih : Rat) bp p).contentX : Rat) +
      (computeFrameLayout (iw : Rat) (ih : Rat) bp p).contentWidth ≤
      ((computeFrameLayout (iw : Rat) (ih : Rat) bp p).canvasWidth : Rat) ∧
    ((computeFrameLayout (iw : Rat) (ih : Rat) bp p).contentY : Rat) +
      (computeFrameLayout (iw : Rat) (ih : Rat) bp p).contentHeight ≤
      ((computeFrameLayout (iw : Rat) (ih : Rat) bp p).canvasHeight : Rat) ∧
    (computeFrameLayout (iw : Rat) (ih : Rat) bp p).contentX =
      jsRound ((((computeFrameLayout (iw : Rat) (ih : Rat) bp p).canvasWidth : Rat) -
        (computeFrameLayout (iw : Rat) (ih : Rat) bp p).contentWidth) / 2) ∧
    (computeFrameLayout (iw : Rat) (ih : Rat) bp p).contentY =
      jsRound ((((computeFrameLayout (iw : Rat) (ih : Rat) bp p).canvasHeight : Rat) -
        (computeFrameLayout (iw : Rat) (ih : Rat) bp p).contentHeight) / 2) ∧
    (computeFrameLayout (iw : Rat) (ih : Rat) bp p).contentWidth ≤
      ((computeFrameLayout (iw : Rat) (ih : Rat) bp p).canvasWidth : Rat) ∧
    (computeFrameLayout (iw : Rat) (ih : Rat) bp p).contentHeight ≤
      ((computeFrameLayout (iw : Rat) (ih : Rat) bp p).canvasHeight : Rat) ∧
    |((computeFrameLayout (iw : Rat) (ih : Rat) bp p).contentX : Rat) -
      (((computeFrameLayout (iw : Rat) (ih : Rat) bp p).canvasWidth : Rat) -
        (computeFrameLayout (iw : Rat) (ih : Rat) bp p).contentWidth) / 2| ≤ 1 ∧
    |((computeFrameLayout (iw : Rat) (ih : Rat) bp p).contentY : Rat) -
      (((computeFrameLayout (iw : Rat) (ih : Rat) bp p).canvasHeight : Rat) -
        (computeFrameLayout (iw : Rat) (ih : Rat) bp p).contentHeight) / 2| ≤ 1 := by
  have hiw : (0 : Rat) < (iw : Rat) := by exact_mod_cast hw
  have hih : (0 : Rat) < (ih : Rat) := by exact_mod_cast hh
  obtain ⟨W, H, hW, hH, heq⟩ := computeFrameLayout_exists (iw : Rat) (ih : Rat) bp p hiw hih hbp
  rw [heq]
  dsimp only
  obtain ⟨ax1, ax2, ax3⟩ := axis_bounds W iw hW
  obtain ⟨ay1, ay2, ay3⟩ := axis_bounds H ih hH
  exact ⟨rfl, rfl, ax1, ay1, rfl, rfl, ax2, ay2, ax3, ay3⟩

/-- Witness for claim C8: the amended invariants instantiated at image
100 by 50 with a 5 percent border and the 4:5 preset. -/
theorem claim_C8_witness :
    (computeFrameLayout ((100 : Nat) : Rat) ((50 : Nat) : Rat) 5 AspectPreset.fourFive).contentWidth
      = ((100 : Nat) : Rat) ∧
    (computeFrameLayout ((100 : Nat) : Rat) ((50 : Nat) : Rat) 5 AspectPreset.fourFive).contentHeight
      = ((50 : Nat) : Rat) ∧
    ((computeFrameLayout ((100 : Nat) : Rat) ((50 : Nat) : Rat) 5 AspectPreset.fourFive).contentX : Rat) +
      (computeFrameLayout ((100 : Nat) : Rat) ((50 : Nat) : Rat) 5 AspectPreset.fourFive).contentWidth ≤
      ((computeFrameLayout ((100 : Nat) : Rat) ((50 : Nat) : Rat) 5 AspectPreset.fourFive).canvasWidth : Rat) ∧
    ((computeFrameLayout ((100 : Nat) : Rat) ((50 : Nat) : Rat) 5 AspectPreset.fourFive).contentY : Rat) +
      (computeFrameLayout ((100 : Nat) : Rat) ((50 : Nat) : Rat) 5 AspectPreset.fourFive).contentHeight ≤
      ((computeFrameLayout ((100 : Nat) : Rat) ((50 : Nat) : Rat) 5 AspectPreset.fourFive).canvasHeight : Rat) ∧
    (computeFrameLayout ((100 : Nat) : Rat) ((50 : Nat) : Rat) 5 AspectPreset.fourFive).contentX =
      jsRound ((((computeFrameLayout ((100 : Nat) : Rat) ((50 : Nat) : Rat) 5 AspectPreset.fourFive).canvasWidth : Rat) -
        (computeFrameLayout ((100 : Nat) : Rat) ((50 : Nat) : Rat) 5 AspectPreset.fourFive).contentWidth) / 2) ∧
    (computeFrameLayout ((100 : Nat) : Rat) ((50 : Nat) : Rat) 5 AspectPreset.fourFive).contentY =
      jsRound ((((computeFrameLayout ((100 : Nat) : Rat) ((50 : Nat) : Rat) 5 AspectPreset.fourFive).canvasHeight : Rat) -
        (computeFrameLayout ((100 : Nat) : Rat) ((50 : Nat) : Rat) 5 AspectPreset.fourFive).contentHeight) / 2) ∧
    (computeFrameLayout ((100 : Nat) : Rat) ((50 : Nat) : Rat) 5 AspectPreset.fourFive).contentWidth ≤
      ((computeFrameLayout ((100 : Nat) : Rat) ((50 : Nat) : Rat) 5 AspectPreset.fourFive).canvasWidth : Rat) ∧
    (computeFrameLayout ((100 : Nat) : Rat) ((50 : Nat) : Rat) 5 AspectPreset.fourFive).contentHeight ≤
      ((computeFrameLayout ((100 : Nat) : Rat) ((50 : Nat) : Rat) 5 AspectPreset.fourFive).canvasHeight : Rat) ∧
    |((computeFrameLayout ((100 : Nat) : Rat) ((50 : Nat) : Rat) 5 AspectPreset.fourFive).contentX : Rat) -
      (((computeFrameLayout ((100 : Nat) : Rat) ((50 : Nat) : Rat) 5 AspectPreset.fourFive).canvasWidth : Rat) -
        (computeFrameLayout ((100 : Nat) : Rat) ((50 : Nat) : Rat) 5 AspectPreset.fourFive).contentWidth) / 2| ≤ 1 ∧
    |((computeFrameLayout ((100 : Nat) : Rat) ((50 : Nat) : Rat) 5 AspectPreset.fourFive).contentY : Rat) -
      (((computeFrameLayout ((100 : Nat) : Rat) ((50 : Nat) : Rat) 5 AspectPreset.fourFive).canvasHeight : Rat) -
        (computeFrameLayout ((100 : Nat) : Rat) ((50 : Nat) : Rat) 5 AspectPreset.fourFive).contentHeight) / 2| ≤ 1 :=
  claim_C8_amended 100 50 5 AspectPreset.fourFive (by norm_num) (by norm_num) (by norm_num)

/-- Claim C9: for all positive width and height, computeSafeScale is at most
1, and it equals 1 exactly when the pixel count is within 16,700,000 and the
longest edge is within 4096. -/
theorem claim_C9_safe_scale (w h : Rat) (hw : 0 < w) (hh : 0 < h) :
    computeSafeScale w h ≤ 1 ∧
      (computeSafeScale w h = 1 ↔ w * h ≤ 16700000 ∧ max w h ≤ 4096) := by
  have hwR : (0 : Real) < (w : Real) := by exact_mod_cast hw
  have hhR : (0 : Real) < (h : Real) := by exact_mod_cast hh
  have hprod : (0 : Real) < (w : Real) * (h : Real) := mul_pos hwR hhR
  have hmax : (0 : Real) < max (w : Real) (h : Real) := lt_max_of_lt_left hwR
  unfold computeSafeScale
  dsimp only
  constructor
  · exact le_trans (min_le_left _ _) (min_le_left _ _)
  · constructor
    · intro h1
      have hp : (1 : Real) ≤
          min 1 (Real.sqrt ((IOS_SAFE_PIXEL_LIMIT : Real) / ((w : Real) * (h : Real)))) := by
        have := min_le_left
          (min 1 (Real.sqrt ((IOS_SAFE_PIXEL_LIMIT : Real) / ((w : Real) * (h : Real)))))
          (min 1 ((IOS_SAFE_EDGE_LIMIT : Real) / max (w : Real) (h : Real)))
        rw [h1] at this
        exact this
      have he : (1 : Real) ≤ min 1 ((IOS_SAFE_EDGE_LIMIT : Real) / max (w : Real) (h : Real)) := by
        have := min_le_right
          (min 1 (Real.sqrt ((IOS_SAFE_PIXEL_LIMIT : Real) / ((w : Real) * (h : Real)))))
          (min 1 ((IOS_SAFE_EDGE_LIMIT : Real) / max (w : Real) (h : Real)))
        rw [h1] at this
        exact this
      have hsq : (1 : Real) ≤
          Real.sqrt ((IOS_SAFE_PIXEL_LIMIT : Real) / ((w : Real) * (h : Real))) :=
        (le_min_iff.mp hp).2
      have hed : (1 : Real) ≤ (IOS_SAFE_EDGE_LIMIT : Real) / max (w : Real) (h : Real) :=
        (le_min_iff.mp he).2
      have hpx : (w : Real) * (h : Real) ≤ (IOS_SAFE_PIXEL_LIMIT : Real) :=
        (one_le_div hprod).mp (Real.one_le_sqrt.mp hsq)
      have hex : max (w : Real) (h : Real) ≤ (IOS_SAFE_EDGE_LIMIT : Real) :=
        (one_le_div hmax).mp hed
      constructor
      · have : ((w * h : Rat) : Real) ≤ ((16700000 : Rat) : Real) := by
          push_cast
          simpa [IOS_SAFE_PIXEL_LIMIT] using hpx
        exact_mod_cast this
      · have : ((max w h : Rat) : Real) ≤ ((4096 : Rat) : Real) := by
          rw [Rat.cast_max]
          simpa [IOS_SAFE_EDGE_LIMIT] using hex
        exact_mod_cast this
    · rintro ⟨hpx, hex⟩
      have hpxR : (w : Real) * (h : Real) ≤ (IOS_SAFE_PIXEL_LIMIT : Real) := by
        have : ((w * h : Rat) : Real) ≤ ((16700000 : Rat) : Real) := by exact_mod_cast hpx
        push_cast at this
        simpa [IOS_SAFE_PIXEL_LIMIT] using this
      have hexR : max (w : Real) (h : Real) ≤ (IOS_SAFE_EDGE_LIMIT : Real) := by
        have : ((max w h : Rat) : Real) ≤ ((4096 : Rat) : Real) := by exact_mod_cast hex
        rw [Rat.cast_max] at this
        simpa [IOS_SAFE_EDGE_LIMIT] using this
      have hsq : (1 : Real) ≤
          Real.sqrt ((IOS_SAFE_PIXEL_LIMIT : Real) / ((w : Real) * (h : Real))) :=
        Real.one_le_sqrt.mpr ((one_le_div hprod).mpr hpxR)
      have hed : (1 : Real) ≤ (IOS_SAFE_EDGE_LIMIT : Real) / max (w : Real) (h : Real) :=
        (one_le_div hmax).mpr hexR
      rw [min_eq_left hsq, min_eq_left hed]
      exact min_self 1

/-- Witness for claim C9: the safe scale at 100 by 100, where both limits are
met, is at most 1 and the equality characterization holds. -/
theorem claim_C9_witness :
    computeSafeScale 100 100 ≤ 1 ∧
      (computeSafeScale 100 100 = 1 ↔ (100 : Rat) * 100 ≤ 16700000 ∧ max (100 : Rat) 100 ≤ 4096) :=
  claim_C9_safe_scale 100 100 (by norm_num) (by norm_num)

/-- Claim C1 (code bug): on the 13-byte truncated buffer orientThrowBuf the
source performs an out-of-bounds DataView.getUint16 at the TIFF byte-order
mark and throws a RangeError (modelled as none) instead of returning the
default orientation 1 as the claim and the spec require. -/
theorem claim_C1_throw_eval : parseExifOrientation orientThrowBuf = none := by decide

/-- Claim C3 counterexample: on orientNineBuf the function returns the raw
tag value 9, which is not in the set 1..8, so the claim as stated is false. -/
theorem claim_C3_counterexample :
    parseExifOrientation orientNineBuf = some 9 ∧ ¬ (1 ≤ 9 ∧ 9 ≤ 8) := by
  refine ⟨by decide, by omega⟩

/-- Claim C3 (amended): whenever parseExifOrientation returns normally, its
value is the default 1 or a raw 16-bit directory value, hence an integer below
65536; values outside 1..8 are not clamped. -/
theorem claim_C3_amended (b : List Nat) (v : Nat)
    (h : parseExifOrientation b = some v) : v < 65536 := by
  unfold parseExifOrientation at h
  split at h
  · cases h; norm_num
  · split at h
    · rename_i hscan
      cases h
      exact orientScan_ok_lt _ _ _ _ hscan
    · cases h
    · cases h

/-- Witness for claim C3: the amended bound applied to the concrete buffer
that returns the raw value 9. -/
theorem claim_C3_witness :
    parseExifOrientation orientNineBuf = some 9 ∧ 9 < 65536 :=
  ⟨by decide, claim_C3_amended orientNineBuf 9 (by decide)⟩

theorem mkExif_aperture (b : List Nat) (little : Bool)
    (ifd0 exifIfd : List (Nat × ParsedEntry)) :
    (mkExif b little ifd0 exifIfd).aperture =
      formatAperture (apertureNumber
        (toNumber (readEntryValue b (lookupTag exifIfd EXIF_TAG_FNUMBER) little))
        (toNumber (readEntryValue b (lookupTag exifIfd EXIF_TAG_APERTURE_VALUE) little))) := rfl

theorem mkExif_shutter (b : List Nat) (little : Bool)
    (ifd0 exifIfd : List (Nat × ParsedEntry)) :
    (mkExif b little ifd0 exifIfd).shutter =
      formatShutter (shutterNumber
        (toNumber (readEntryValue b (lookupTag exifIfd EXIF_TAG_EXPOSURE_TIME) little))
        (toNumber (readEntryValue b (lookupTag exifIfd EXIF_TAG_SHUTTER_SPEED_VALUE) little))) := rfl

theorem mkExif_focal (b : List Nat) (little : Bool)
    (ifd0 exifIfd : List (Nat × ParsedEntry)) :
    (mkExif b little ifd0 exifIfd).focal =
      formatFocal (toNumber (readEntryValue b
        (lookupTag exifIfd EXIF_TAG_FOCAL_LENGTH) little)) := rfl

theorem mkExif_camera (b : List Nat) (little : Bool)
    (ifd0 exifIfd : List (Nat × ParsedEntry)) :
    (mkExif b little ifd0 exifIfd).camera =
      Option.orElse (toStringV (readEntryValue b (lookupTag ifd0 TAG_MODEL) little))
        (fun _ => toStringV (readEntryValue b (lookupTag ifd0 TAG_MAKE) little)) := rfl

/-- Claim C2: a buffer shorter than 4 bytes or not starting with the SOI
marker FFD8 makes extractExifData return the record with unavailable true and
every other field absent. -/
theorem claim_C2_not_jpeg_unavailable (b : List Nat)
    (h : b.length < 4 ∨ getUint16 b 0 false ≠ 0xffd8) :
    extractExifData b =
      { aperture := none, shutter := none, iso := none, focal := none, camera := none,
        lens := none, date := none, debug := none, unavailable := some true } := by
  unfold extractExifData
  rw [if_pos h]
  rfl

/-- Witness for claim C2: the all-zero 4-byte buffer does not start with FFD8
and yields the bare unavailable record. -/
theorem claim_C2_witness :
    (([0, 0, 0, 0] : List Nat).length < 4 ∨ getUint16 [0, 0, 0, 0] 0 false ≠ 0xffd8) ∧
    extractExifData [0, 0, 0, 0] =
      { aperture := none, shutter := none, iso := none, focal := none, camera := none,
        lens := none, date := none, debug := none, unavailable := some true } :=
  ⟨by decide, claim_C2_not_jpeg_unavailable [0, 0, 0, 0] (by decide)⟩

/-- Claim C4 counterexample: in exifApexBuf the FNumber entry is a rational
with denominator 0, so its read yields no value, yet the aperture output field
is still present because the ApertureValue fallback supplies one.  The claim
that the corresponding output field is always absent is therefore false. -/
theorem claim_C4_counterexample :
    readRational exifApexBuf 68 true = none ∧
    (extractExifData exifApexBuf).aperture ≠ none := by
  constructor
  · decide
  · have hkey : extractExifData exifApexBuf =
        mkExif exifApexBuf true [(0x8769, ⟨4, 1, 30⟩)]
          [(0x829d, ⟨5, 1, 68⟩), (0x9202, ⟨10, 1, 76⟩)] := rfl
    rw [hkey, mkExif_aperture]
    have h1 : toNumber (readEntryValue exifApexBuf
        (lookupTag [(0x829d, ⟨5, 1, 68⟩), (0x9202, ⟨10, 1, 76⟩)] EXIF_TAG_FNUMBER) true) =
        none := by decide
    have h2 : toNumber (readEntryValue exifApexBuf
        (lookupTag [(0x829d, ⟨5, 1, 68⟩), (0x9202, ⟨10, 1, 76⟩)] EXIF_TAG_APERTURE_VALUE)
        true) = some (((2 : Int) : Rat) / ((1 : Int) : Rat)) := rfl
    have h2q : (((2 : Int) : Rat) / ((1 : Int) : Rat)) = 2 := by norm_num
    rw [h1, h2, h2q]
    have hap : apertureNumber none (some 2) =
        some ((2 : Real) ^ (((2 : Rat) : Real) / 2)) := by
      unfold apertureNumber apertureFromApex
      norm_num [Option.orElse]
    rw [hap]
    have hpos : (0 : Real) < (2 : Real) ^ (((2 : Rat) : Real) / 2) :=
      Real.rpow_pos_of_pos (by norm_num) _
    unfold formatAperture
    dsimp only
    rw [if_neg (not_le.mpr hpos)]
    simp

/-- Claim C4 (amended): a rational or signed-rational read with denominator 0
yields no value, and the corresponding output field is absent unless a
fallback tag in its chain supplies a value: the focal field (which has no
fallback) is absent whenever its entry has denominator 0, and the aperture
field is absent when both FNumber and ApertureValue yield no value.  In this
exact-arithmetic model no NaN or Infinity exists to propagate. -/
theorem claim_C4_amended :
    (∀ (b : List Nat) (off : Nat) (little : Bool),
      getUint32 b (off + 4) little = 0 → readRational b off little = none) ∧
    (∀ (b : List Nat) (off : Nat) (little : Bool),
      getInt32 b (off + 4) little = 0 → readSignedRational b off little = none) ∧
    (∀ (b : List Nat) (little : Bool) (ifd0 m : List (Nat × ParsedEntry)) (e : ParsedEntry),
      lookupTag m EXIF_TAG_FOCAL_LENGTH = some e → e.type = 5 → e.count = 1 →
      getUint32 b (e.valueOffset + 4) little = 0 →
      (mkExif b little ifd0 m).focal = none) ∧
    (∀ (b : List Nat) (little : Bool) (ifd0 m : List (Nat × ParsedEntry)),
      toNumber (readEntryValue b (lookupTag m EXIF_TAG_FNUMBER) little) = none →
      toNumber (readEntryValue b (lookupTag m EXIF_TAG_APERTURE_VALUE) little) = none →
      (mkExif b little ifd0 m).aperture = none) := by
  refine ⟨?_, ?_, ?_, ?_⟩
  · intro b off little hd
    simp [readRational, hd]
  · intro b off little hd
    simp [readSignedRational, hd]
  · intro b little ifd0 m e hl ht hc hd
    rw [mkExif_focal, hl]
    have hrr : readRational b e.valueOffset little = none := by
      simp [readRational, hd]
    by_cases hvo : e.valueOffset ≥ b.length
    · simp [readEntryValue, hvo, toNumber, formatFocal]
    · simp [readEntryValue, hvo, ht, hc, hrr, toNumber, formatFocal]
  · intro b little ifd0 m h1 h2
    rw [mkExif_aperture, h1, h2]
    simp [apertureNumber, apertureFromApex, formatAperture, Option.orElse]

/-- Witness for claim C4: the amended statement applied to exifApexBuf, whose
FocalLength entry is the denominator-0 rational at offset 68, and to a
directory with neither aperture tag readable. -/
theorem claim_C4_witness :
    (getUint32 exifApexBuf (68 + 4) true = 0 ∧ readRational exifApexBuf 68 true = none) ∧
    (getInt32 exifApexBuf (68 + 4) true = 0 ∧ readSignedRational exifApexBuf 68 true = none) ∧
    (mkExif exifApexBuf true [] [(0x920a, ⟨5, 1, 68⟩)]).focal = none ∧
    (mkExif exifApexBuf true [] []).aperture = none :=
  ⟨⟨by decide, claim_C4_amended.1 exifApexBuf 68 true (by decide)⟩,
   ⟨by decide, claim_C4_amended.2.1 exifApexBuf 68 true (by decide)⟩,
   claim_C4_amended.2.2.1 exifApexBuf true [] [(0x920a, ⟨5, 1, 68⟩)] ⟨5, 1, 68⟩
     (by decide) rfl rfl (by decide),
   claim_C4_amended.2.2.2 exifApexBuf true [] [] (by decide) (by decide)⟩

/-- Claim C5 counterexample: an APEX ApertureValue or ShutterSpeedValue equal
to 0 is dropped by the JavaScript truthiness guard, so the code produces no
numeric value, while the claimed formulas 2 to the power av/2 and 2 to the
power minus tv would give 1. -/
theorem claim_C5_counterexample :
    apertureNumber none (some 0) = none ∧ shutterNumber none (some 0) = none ∧
    (2 : Real) ^ (((0 : Rat) : Real) / 2) = 1 ∧ (2 : Real) ^ (-((0 : Rat) : Real)) = 1 := by
  refine ⟨?_, ?_, ?_, ?_⟩
  · simp [apertureNumber, apertureFromApex, Option.orElse]
  · simp [shutterNumber, shutterFromApex, Option.orElse]
  · norm_num
  · norm_num

/-- Claim C5 (amended): the numeric aperture value is FNumber whenever that
tag is present and readable; otherwise it is 2 to the power av/2 for a
present nonzero ApertureValue av (a zero APEX value is treated as absent).
Likewise the shutter seconds value is ExposureTime when present and readable,
otherwise 2 to the power minus tv for a present nonzero ShutterSpeedValue tv.
The last part ties the chains to the fields of the assembled record. -/
theorem claim_C5_amended :
    (∀ (f av : Option Rat) (q : Rat), f = some q →
      apertureNumber f av = some ((q : Real))) ∧
    (∀ a : Rat, a ≠ 0 →
      apertureNumber none (some a) = some ((2 : Real) ^ ((a : Real) / 2))) ∧
    (∀ (e tv : Option Rat) (q : Rat), e = some q →
      shutterNumber e tv = some ((q : Real))) ∧
    (∀ t : Rat, t ≠ 0 →
      shutterNumber none (some t) = some ((2 : Real) ^ (-(t : Real)))) ∧
    (∀ (b : List Nat) (little : Bool) (ifd0 m : List (Nat × ParsedEntry)),
      (mkExif b little ifd0 m).aperture = formatAperture (apertureNumber
        (toNumber (readEntryValue b (lookupTag m EXIF_TAG_FNUMBER) little))
        (toNumber (readEntryValue b (lookupTag m EXIF_TAG_APERTURE_VALUE) little))) ∧
      (mkExif b little ifd0 m).shutter = formatShutter (shutterNumber
        (toNumber (readEntryValue b (lookupTag m EXIF_TAG_EXPOSURE_TIME) little))
        (toNumber (readEntryValue b (lookupTag m EXIF_TAG_SHUTTER_SPEED_VALUE) little)))) := by
  refine ⟨?_, ?_, ?_, ?_, ?_⟩
  · intro f av q hf
    subst hf
    simp [apertureNumber, Option.orElse]
  · intro a ha
    simp [apertureNumber, apertureFromApex, Option.orElse, ha]
  · intro e tv q he
    subst he
    simp [shutterNumber, Option.orElse]
  · intro t ht
    have h : shutterNumber none (some t) = some (1 / (2 : Real) ^ (t : Real)) := by
      simp [shutterNumber, shutterFromApex, Option.orElse, ht]
    rw [h, Real.rpow_neg (by norm_num : (0 : Real) ≤ 2), one_div]
  · intro b little ifd0 m
    exact ⟨rfl, rfl⟩

/-- Witness for claim C5: each branch of the amended fallback description at
a concrete value. -/
theorem claim_C5_witness :
    apertureNumber (some 2) none = some ((2 : Rat) : Real) ∧
    apertureNumber none (some 2) = some ((2 : Real) ^ (((2 : Rat) : Real) / 2)) ∧
    shutterNumber (some (1 / 250)) none = some (((1 : Rat) / 250 : Rat) : Real) ∧
    shutterNumber none (some 1) = some ((2 : Real) ^ (-((1 : Rat) : Real))) :=
  ⟨claim_C5_amended.1 (some 2) none 2 rfl,
   claim_C5_amended.2.1 2 (by norm_num),
   claim_C5_amended.2.2.1 (some (1 / 250)) none (1 / 250) rfl,
   claim_C5_amended.2.2.2.1 1 (by norm_num)⟩

/-- Claim C6: the camera field is the Model tag value when Model is present
(readAscii never yields an empty string, so a present Model is non-empty),
and otherwise the Make tag value; the two are never joined. -/
theorem claim_C6_camera_model_priority :
    (∀ (b : List Nat) (little : Bool) (ifd0 m : List (Nat × ParsedEntry)),
      (mkExif b little ifd0 m).camera = Option.orElse
        (toStringV (readEntryValue b (lookupTag ifd0 TAG_MODEL) little))
        (fun _ => toStringV (readEntryValue b (lookupTag ifd0 TAG_MAKE) little))) ∧
    (∀ (b : List Nat) (offset count : Nat) (s : String),
      readAscii b offset count = some s → s ≠ "") := by
  constructor
  · intro b little ifd0 m
    exact mkExif_camera b little ifd0 m
  · intro b offset count s h hempty
    subst hempty
    unfold readAscii at h
    dsimp only at h
    split at h
    · cases h
    · rename_i hne
      have hmk : String.mk (trimChars (readAsciiChars b offset count 0)) = "" :=
        Option.some.inj h
      exact hne (by
        have := congrArg String.data hmk
        simpa using this)

/-- Witness for claim C6: the camera equation at empty directories and the
non-empty guarantee at a concrete two-character ASCII read. -/
theorem claim_C6_witness :
    ((mkExif [] true [] []).camera = Option.orElse
      (toStringV (readEntryValue [] (lookupTag [] TAG_MODEL) true))
      (fun _ => toStringV (readEntryValue [] (lookupTag [] TAG_MAKE) true))) ∧
    (readAscii [65, 66, 0] 0 3 = some "AB" ∧ "AB" ≠ "") :=
  ⟨claim_C6_camera_model_priority.1 [] true [] [],
   by decide,
   claim_C6_camera_model_priority.2 [65, 66, 0] 0 3 "AB" (by decide)⟩

theorem exifScan_ne_fuelOut (b : List Nat) :
    ∀ fuel offset, (b.length - offset) / 2 < fuel →
      exifScan b fuel offset ≠ .fuelOut := by
  intro fuel
  induction fuel with
  | zero => intro offset h; omega
  | succ n ih =>
    intro offset h
    unfold exifScan
    dsimp only
    split
    · split
      · split <;> simp
      · split
        · simp
        · split
          · simp
          · rename_i hc _ _
            exact ih _ (by omega)
    · simp

/-- Claim C10: the JPEG marker-scanning loops of extractExifData and of
parseExifOrientation terminate within (buffer length minus offset) / 2 plus
one iterations: with that much fuel neither scan runs out, even when the
attacker-controlled segment-size field is 0, because every iteration that
continues advances the offset by at least 2. -/
theorem claim_C10_scan_bound (b : List Nat) (offset fuel : Nat)
    (h : (b.length - offset) / 2 < fuel) :
    orientScan b fuel offset ≠ OrScanRes.fuelOut ∧
    exifScan b fuel offset ≠ ExScanRes.fuelOut :=
  ⟨orientScan_ne_fuelOut b fuel offset h, exifScan_ne_fuelOut b fuel offset h⟩

/-- Witness for claim C10: the bound instantiated on the empty buffer. -/
theorem claim_C10_witness :
    (([] : List Nat).length - 0) / 2 < 1 ∧
    (orientScan [] 1 0 ≠ OrScanRes.fuelOut ∧ exifScan [] 1 0 ≠ ExScanRes.fuelOut) :=
  ⟨by decide, claim_C10_scan_bound [] 0 1 (by decide)⟩
